import Mathlib

/-!
# Verification of `CAnyMovable` (src/AnyMovable.h)

A shallow embedding of the type-erasing, move-only container `CAnyMovable`
from `src/AnyMovable.h`, together with proofs of the specification claims.

The container owns at most one heap object through a
`std::unique_ptr<IObjectStored>` (`pIObject_`, line 246).  We model the
erased stored object as a dependent pair `Sigma Val` over an index type
`ι` of concrete C++ types: the first component is the (erased) concrete
type, the second is the held value — this is `CObjectKeeper<T>::Object_`
together with its dynamic type.  The `unique_ptr` is modelled as
`Option (Sigma Val)`: `none` is the null pointer.

The consumer-supplied template families `TInterface`/`TImplementation`
are modelled by an `Impl` record giving, per concrete type, the bodies of
the interface methods (one observer returning `R` and one mutator), which
in the C++ source read and write `CObjectKeeper::Object()`.
-/

namespace NSLibrary

/-- The consumer's `TImplementation` family: for each concrete type `t : ι`
it implements the abstract interface methods by operating on the wrapped
value exposed by `CObjectKeeper::Object()` (lines 181–187).  We model one
observer method (`call`) and one mutating method (`mutate`). -/
structure Impl (ι : Type) (Val : ι → Type) (R : Type) where
  call : (t : ι) → Val t → R
  mutate : (t : ι) → Val t → Val t

/-- Model of `CAnyMovable` (line 100): the public-facing container.  Its single data
member `pIObject_ : std::unique_ptr<IObjectStored>` (line 246) is modelled
as an `Option` of the erased stored object. -/
structure CAnyMovable (ι : Type) (Val : ι → Type) where
  pIObject_ : Option (Sigma Val)

namespace CAnyMovable

variable {ι : Type} {Val : ι → Type} {R : Type}

/-- Default constructor `CAnyMovable() = default` (line 106): the
`unique_ptr` member is value-initialized to null, so the container is
empty. -/
def mkDefault : CAnyMovable ι Val := ⟨none⟩

/-- Value constructor `CAnyMovable(T&& Object)` (lines 108–111): allocates
a `CObjectStored<CObjType<T>>` holding the value (moved in) and adopts the
pointer; the container becomes non-empty. -/
def ofValue (t : ι) (v : Val t) : CAnyMovable ι Val := ⟨some ⟨t, v⟩⟩

/-- Model of `isDefined` (lines 126–128): `pIObject_.operator bool()`, i.e. whether
the owned pointer is non-null. -/
def isDefined (a : CAnyMovable ι Val) : Bool := a.pIObject_.isSome

/-- Model of `operator->()` (lines 137–139): returns `pIObject_.get()`, the raw
interface pointer, with no emptiness check; on an empty container this is
the null pointer (`none`). -/
def opArrow (a : CAnyMovable ι Val) : Option (Sigma Val) := a.pIObject_

/-- Model of `operator->() const` (lines 141–143): the const overload has the very
same body `return pIObject_.get();` and the very same non-const return
type `TInterface<IEmpty>*`. -/
def opArrowConst (a : CAnyMovable ι Val) : Option (Sigma Val) := a.pIObject_

/-- Model of `clear()` (lines 150–152): `pIObject_.reset()`, destroying the held
object if any and leaving the pointer null. -/
def clear (a : CAnyMovable ι Val) : CAnyMovable ι Val :=
  let _ := a.pIObject_   -- the old object, destroyed by reset()
  ⟨none⟩

/-- Model of `emplace<TObject>(args...)` (lines 145–148) on the success path:
`pIObject_ = make_unique<CObjectStored<TObject>>(forward(args)...)`.
The new stored object is built from the arguments and the assignment
replaces (destroys) the previous one. -/
def emplace (a : CAnyMovable ι Val) (t : ι) (v : Val t) : CAnyMovable ι Val :=
  let _ := a.pIObject_   -- the old object, destroyed by unique_ptr::operator=
  ⟨some ⟨t, v⟩⟩

/-- Move construction `CAnyMovable(CAnyMovable&&) = default` (line 120):
member-wise move of the `unique_ptr`, which transfers the single owned
pointer to the destination and leaves the source's pointer null.  Returns
(destination, source-after-move). -/
def moveCtor (src : CAnyMovable ι Val) :
    CAnyMovable ι Val × CAnyMovable ι Val :=
  (⟨src.pIObject_⟩, ⟨none⟩)

/-- Move assignment `operator=(CAnyMovable&&) = default` (line 124):
member-wise `unique_ptr` move assignment — the destination's old object is
destroyed, the source's pointer is adopted, and the source is left null.
Returns (destination-after, source-after). -/
def moveAssign (dst src : CAnyMovable ι Val) :
    CAnyMovable ι Val × CAnyMovable ι Val :=
  let _ := dst.pIObject_   -- destination's old object, destroyed
  (⟨src.pIObject_⟩, ⟨none⟩)

/-- Interface dispatch through `operator->()`: `a->method()` calls the
virtual method on the pointee, whose override (supplied by the
`TImplementation` family) runs on the wrapped value. -/
def dispatch (impl : Impl ι Val R) (a : CAnyMovable ι Val) : Option R :=
  a.opArrow.map fun o => impl.call o.1 o.2

/-- A mutating interface call made through the non-const `operator->()`:
the method writes through `CObjectKeeper::Object()`, updating the held
value in place. -/
def mutateVia (impl : Impl ι Val R) (a : CAnyMovable ι Val) :
    CAnyMovable ι Val :=
  ⟨a.opArrow.map fun o => ⟨o.1, impl.mutate o.1 o.2⟩⟩

/-- The same mutating interface call made through the const overload
`operator->() const`: the overload hands back the same non-const
interface pointer, so the call compiles and writes just the same. -/
def mutateViaConst (impl : Impl ι Val R) (a : CAnyMovable ι Val) :
    CAnyMovable ι Val :=
  ⟨a.opArrowConst.map fun o => ⟨o.1, impl.mutate o.1 o.2⟩⟩

/-- Number of objects the container currently holds: a `unique_ptr` holds
one object when non-null, zero when null. -/
def heldCount (a : CAnyMovable ι Val) : Nat :=
  match a.pIObject_ with
  | none => 0
  | some _ => 1

end CAnyMovable

/-! ## Template argument deduction for the value constructor (C2)

The value constructor (lines 108–111) is
`template<class T> CAnyMovable(T&& Object)` and stores a
`CObjectStored<CObjType<T>>`, where `CObjType<T> = std::remove_reference_t<T>`
(lines 103–104).  We model the fragment of the C++ type grammar needed to
state what type is deduced and stored. -/

/-- A fragment of C++ types: scalars (identified by a tag), top-level
const qualification, arrays of known bound, pointers, and lvalue/rvalue
references. -/
inductive Ty where
  | scalar (id : Nat)
  | constQ (t : Ty)
  | array (t : Ty) (n : Nat)
  | ptr (t : Ty)
  | lref (t : Ty)
  | rref (t : Ty)
  deriving DecidableEq

/-- Whether a type is a reference type. -/
def Ty.isRef : Ty → Bool
  | Ty.lref _ => true
  | Ty.rref _ => true
  | _ => false

/-- Model of `std::remove_reference_t`: strips one outer reference. -/
def Ty.removeReference : Ty → Ty
  | Ty.lref t => t
  | Ty.rref t => t
  | t => t

/-- Strips a top-level const qualifier. -/
def Ty.removeTopConst : Ty → Ty
  | Ty.constQ t => t
  | t => t

/-- Value category of the constructor argument expression. -/
inductive ValueCat where
  | lvalue
  | rvalue
  deriving DecidableEq

/-- Template argument deduction for a forwarding reference
`template<class T> CAnyMovable(T&& Object)` (lines 108–109): for an
argument expression of (non-reference) type `A`, an lvalue deduces
`T = A&` and an rvalue deduces `T = A`.  Const qualification of `A` is
preserved by deduction. -/
def deduceT (A : Ty) : ValueCat → Ty
  | ValueCat.lvalue => Ty.lref A
  | ValueCat.rvalue => A

/-- Model of `CObjType<T> = std::remove_reference_t<T>` (lines 103–104):
the concrete type actually stored, `CObjectStored<CObjType<T>>`
(line 110). -/
def CObjType (T : Ty) : Ty := T.removeReference

/-- Modelled from the spec: `std::decay_t`, the type the spec claims is
stored ("V's decayed, reference-stripped type", with no const
qualification).  `std::decay_t` strips references, converts arrays to
pointers to their element type, and removes top-level cv-qualifiers.
This definition follows the spec's words and the C++ standard, for
comparison against `CObjType`, which is what the source uses. -/
def decaySpec (T : Ty) : Ty :=
  match T.removeReference with
  | Ty.array e _ => Ty.ptr e
  | u => u.removeTopConst

/-! ## Construction event traces (C1, C3)

To state "exactly one instance of `T` is constructed, with no intermediate
temporary" and the release ordering of `emplace`, we instrument the
construction pipeline with event traces. -/

/-- Events concerning the target type `TObject` during a construction
pipeline: a run of its constructor from the forwarded arguments, a copy
construction, or a move construction. -/
inductive TEvent where
  | construct
  | copy
  | moveT
  deriving DecidableEq, BEq

/-- The keeper's variadic constructor
`CObjectKeeper(TArgs&&... args) : Object_(std::forward<TArgs>(args)...)`
(lines 177–178): the member `Object_` is initialized directly from the
forwarded arguments — one run of `TObject`'s constructor, nothing else.
`ctor` is `TObject`'s own constructor, mapping the argument tuple to the
constructed value. -/
def keeperCtorInPlace {A V : Type} (ctor : A → V) (args : A) :
    V × List TEvent :=
  (ctor args, [TEvent.construct])

/-- The keeper's move-in constructor
`CObjectKeeper(TObject&& Object) : Object_(std::move(Object))`
(lines 171–173): `Object_` is move-constructed from an already existing
value. -/
def keeperCtorFromValue {V : Type} (v : V) : V × List TEvent :=
  (v, [TEvent.moveT])

/-- The `TImplementation<CObjectKeeper<TObject>, TObject>` layer: the
consumer's implementation class inherits the keeper's constructors
(`using CBase::CBase` in the usage pattern, comment lines 49–51), adding
no members of type `TObject`. -/
def implementationCtorInPlace {A V : Type} (ctor : A → V) (args : A) :
    V × List TEvent :=
  keeperCtorInPlace ctor args

/-- The `CObjectStored<TObject>` layer (lines 226–234): inherits the
implementation's constructors via `using CBase::CBase` (line 231), adding
nothing. -/
def objectStoredCtorInPlace {A V : Type} (ctor : A → V) (args : A) :
    V × List TEvent :=
  implementationCtorInPlace ctor args

/-- Allocation `std::make_unique<CObjectStored<TObject>>(forward(args)...)`
(lines 115 and 147): runs `CObjectStored<TObject>`'s constructor once on
the heap with the forwarded arguments. -/
def makeUniqueInPlace {A V : Type} (ctor : A → V) (args : A) :
    V × List TEvent :=
  objectStoredCtorInPlace ctor args

namespace CAnyMovable

variable {ι : Type} {Val : ι → Type}

/-- Traced tagged in-place constructor
`CAnyMovable(std::in_place_type_t<T>, TArgs&&... args)` (lines 113–115):
initializes `pIObject_` with the freshly allocated stored object.
Returns the container together with the trace of `TObject` events. -/
def inPlaceCtorTr {A : Type} (t : ι) (ctor : A → Val t) (args : A) :
    CAnyMovable ι Val × List TEvent :=
  let r := makeUniqueInPlace ctor args
  (⟨some ⟨t, r.1⟩⟩, r.2)

/-- Traced `emplace<TObject>(args...)` (lines 145–148):
`pIObject_ = make_unique<CObjectStored<TObject>>(forward(args)...)` — the
same single construction pipeline, followed by the pointer assignment
that destroys the previous object (an object of some other erased type,
so no `TObject` event). -/
def emplaceTr {A : Type} (a : CAnyMovable ι Val) (t : ι) (ctor : A → Val t)
    (args : A) : CAnyMovable ι Val × List TEvent :=
  let r := makeUniqueInPlace ctor args
  let _ := a.pIObject_   -- previous object, destroyed by the assignment
  (⟨some ⟨t, r.1⟩⟩, r.2)

/-- Model of `emplace` with a possibly failing constructor (lines 145–148).
In C++ the full right-hand side `make_unique<CObjectStored<TObject>>(...)`
is evaluated before `unique_ptr::operator=` runs.  If `TObject`'s
constructor throws, the exception propagates out of `emplace` before any
assignment, leaving `pIObject_` — and hence the previously held object —
untouched.  Only on success does the assignment destroy the old object
and adopt the new one.  Returns the container state after the call and
the exception, if one was thrown. -/
def emplaceF {E : Type} (a : CAnyMovable ι Val) (t : ι)
    (ctor : Except E (Val t)) : CAnyMovable ι Val × Option E :=
  match ctor with
  | Except.error e => (a, some e)
  | Except.ok v => (⟨some ⟨t, v⟩⟩, none)

end CAnyMovable

/-- Release-ordering events during `emplace` (lines 145–148): `ctorNew`
marks the completed construction of the new stored object inside
`make_unique`; `dtorOld` marks the release of the previously held object
by `unique_ptr::operator=`. -/
inductive REvent where
  | ctorNew
  | dtorOld
  deriving DecidableEq

/-- Order of operations of `emplace` (lines 145–148), by whether the
container was holding an object and whether the new constructor
succeeds: `make_unique` finishes constructing the new object first; only
then does the assignment release the old one.  A throwing constructor
aborts the statement before any release. -/
def emplaceEvents (holding ctorOk : Bool) : List REvent :=
  if ctorOk then
    REvent.ctorNew :: (if holding then [REvent.dtorOld] else [])
  else []

/-! ## The array specialization of the keeper (C4) -/

/-- Delegating constructor of `CObjectKeeper<T[Tsize]>`
(lines 200–202 and 216–220): the public constructor forwards to the
private one with `std::make_integer_sequence<size_t, Tsize>`, which
initializes `Object_ { std::move(Object[TIndex])... }` — each element is
moved individually at the compile-time indices `0, 1, ..., Tsize-1`, in
that order.  Arrays are modelled as lists; `List.finRange` plays the role
of the integer sequence and moving an element transfers its value. -/
def arrayKeeperCtor {V : Type} (src : List V) : List V :=
  (List.finRange src.length).map fun i => src.get i

/-- Accessor `Object()` of the array keeper (lines 207–209): returns the
stored array `Object_`. -/
def arrayKeeperObject {V : Type} (stored : List V) : List V := stored

/-! ## Reachable container states (C8) -/

namespace CAnyMovable

variable {ι : Type} {Val : ι → Type}

/-- The states a container can be put in by the public entry points:
default construction, value construction, tagged/emplace construction,
clear, and being either end of a move.  (A failed `emplaceF` leaves the
state that was already reached, so it adds no constructor.) -/
inductive Reachable : CAnyMovable ι Val → Prop where
  | viaDefault : Reachable CAnyMovable.mkDefault
  | viaValue (t : ι) (v : Val t) : Reachable (CAnyMovable.ofValue t v)
  | viaEmplace (a : CAnyMovable ι Val) (t : ι) (v : Val t) :
      Reachable a → Reachable (a.emplace t v)
  | viaClear (a : CAnyMovable ι Val) : Reachable a → Reachable a.clear
  | viaMoveOut (a : CAnyMovable ι Val) :
      Reachable a → Reachable (CAnyMovable.moveCtor a).2
  | viaMoveIn (a : CAnyMovable ι Val) :
      Reachable a → Reachable (CAnyMovable.moveCtor a).1
  | viaMoveAssignDst (d s : CAnyMovable ι Val) :
      Reachable d → Reachable s → Reachable (CAnyMovable.moveAssign d s).1
  | viaMoveAssignSrc (d s : CAnyMovable ι Val) :
      Reachable d → Reachable s → Reachable (CAnyMovable.moveAssign d s).2

end CAnyMovable

/-! ## Theorems for the claims -/

/-- C6: after constructing a container from a value `V`, `isDefined()`
returns true, and interface dispatch through the container — both an
observer call and a mutating call — produces exactly the result of
invoking the corresponding implementation's method on `V` directly. -/
theorem ofValue_isDefined_dispatch {ι : Type} {Val : ι → Type} {R : Type}
    (impl : Impl ι Val R) (t : ι) (v : Val t) :
    (CAnyMovable.ofValue t v : CAnyMovable ι Val).isDefined = true ∧
    CAnyMovable.dispatch impl (CAnyMovable.ofValue t v) = some (impl.call t v) ∧
    CAnyMovable.mutateVia impl (CAnyMovable.ofValue t v)
      = CAnyMovable.ofValue t (impl.mutate t v) :=
  ⟨rfl, rfl, rfl⟩

/-- C7: `clear()` leaves any container empty, is idempotent, and on an
already-empty container it is a no-op (the state is unchanged). -/
theorem clear_empties_and_is_noop_on_empty {ι : Type} {Val : ι → Type}
    (a : CAnyMovable ι Val) :
    a.clear.isDefined = false ∧
    a.clear.clear = a.clear ∧
    (a.isDefined = false → a.clear = a) := by
  refine ⟨rfl, rfl, fun h => ?_⟩
  cases a with
  | mk p =>
    cases p with
    | none => rfl
    | some o => simp [CAnyMovable.isDefined] at h

/-- Witness for C7, at the empty (default-constructed) container. -/
theorem clear_empties_and_is_noop_on_empty_witness :
    (CAnyMovable.mkDefault : CAnyMovable Unit fun _ => Nat).clear.isDefined
      = false ∧
    (CAnyMovable.mkDefault : CAnyMovable Unit fun _ => Nat).clear
      = CAnyMovable.mkDefault :=
  ⟨(clear_empties_and_is_noop_on_empty CAnyMovable.mkDefault).1,
   (clear_empties_and_is_noop_on_empty CAnyMovable.mkDefault).2.2 rfl⟩

/-- C9: `operator->()` returns the null pointer exactly when the container
is empty; when `isDefined()` holds it returns the non-null owned interface
pointer. -/
theorem opArrow_null_iff_empty {ι : Type} {Val : ι → Type}
    (a : CAnyMovable ι Val) :
    (a.opArrow = none ↔ a.isDefined = false) ∧
    (a.isDefined = true → a.opArrow ≠ none ∧ a.opArrow = a.pIObject_) := by
  cases a with
  | mk p =>
    cases p with
    | none => simp [CAnyMovable.opArrow, CAnyMovable.isDefined]
    | some o => simp [CAnyMovable.opArrow, CAnyMovable.isDefined]

/-- Witness for C9, at a container holding the value 5. -/
theorem opArrow_null_iff_empty_witness :
    ((CAnyMovable.ofValue () 5 : CAnyMovable Unit fun _ => Nat)).isDefined = true ∧
    ((CAnyMovable.ofValue () 5 : CAnyMovable Unit fun _ => Nat)).opArrow ≠ none :=
  ⟨rfl,
   ((opArrow_null_iff_empty
      ((CAnyMovable.ofValue () 5 : CAnyMovable Unit fun _ => Nat))).2 rfl).1⟩

/-- C10: the const overload of `operator->()` returns the very same
non-const interface pointer as the non-const overload, so a mutating
interface call through a const container updates the held value exactly as
through a non-const one — const access is not read-only. -/
theorem const_opArrow_grants_mutation {ι : Type} {Val : ι → Type} {R : Type}
    (impl : Impl ι Val R) (a : CAnyMovable ι Val) (t : ι) (v : Val t) :
    a.opArrowConst = a.opArrow ∧
    CAnyMovable.mutateViaConst impl a = CAnyMovable.mutateVia impl a ∧
    CAnyMovable.mutateViaConst impl (CAnyMovable.ofValue t v)
      = CAnyMovable.ofValue t (impl.mutate t v) :=
  ⟨rfl, rfl, rfl⟩

/-- C5: moving a non-empty container (by move construction or move
assignment) transfers the single owned reference: the source becomes
empty, the destination is non-empty, holds literally the same reference
(no duplication — the total held count is preserved), and dispatch through
the destination behaves as through the original. -/
theorem move_transfers_single_ownership {ι : Type} {Val : ι → Type}
    {R : Type} (impl : Impl ι Val R) (a dst : CAnyMovable ι Val)
    (h : a.isDefined = true) :
    ((CAnyMovable.moveCtor a).2.isDefined = false ∧
     (CAnyMovable.moveCtor a).1.isDefined = true ∧
     CAnyMovable.dispatch impl (CAnyMovable.moveCtor a).1
       = CAnyMovable.dispatch impl a ∧
     (CAnyMovable.moveCtor a).1.pIObject_ = a.pIObject_ ∧
     (CAnyMovable.moveCtor a).1.heldCount + (CAnyMovable.moveCtor a).2.heldCount
       = a.heldCount) ∧
    ((CAnyMovable.moveAssign dst a).2.isDefined = false ∧
     (CAnyMovable.moveAssign dst a).1.isDefined = true ∧
     CAnyMovable.dispatch impl (CAnyMovable.moveAssign dst a).1
       = CAnyMovable.dispatch impl a ∧
     (CAnyMovable.moveAssign dst a).1.pIObject_ = a.pIObject_) := by
  cases a with
  | mk p =>
    cases p with
    | none => simp [CAnyMovable.isDefined] at h
    | some o => exact ⟨⟨rfl, rfl, rfl, rfl, rfl⟩, rfl, rfl, rfl, rfl⟩

/-- Witness for C5, moving a container holding the value 7. -/
theorem move_transfers_single_ownership_witness :
    ((CAnyMovable.ofValue () 7 : CAnyMovable Unit fun _ => Nat)).isDefined = true ∧
    (CAnyMovable.moveCtor
      ((CAnyMovable.ofValue () 7 : CAnyMovable Unit fun _ => Nat))).2.isDefined
      = false ∧
    (CAnyMovable.moveCtor
      ((CAnyMovable.ofValue () 7 : CAnyMovable Unit fun _ => Nat))).1.isDefined
      = true :=
  ⟨rfl,
   (move_transfers_single_ownership ⟨fun _ v => v, fun _ v => v + 1⟩
      (CAnyMovable.ofValue () 7) CAnyMovable.mkDefault rfl).1.1,
   (move_transfers_single_ownership ⟨fun _ v => v, fun _ v => v + 1⟩
      (CAnyMovable.ofValue () 7) CAnyMovable.mkDefault rfl).1.2.1⟩

/-- C8: the container's states are exactly empty or holding one object: a
default-constructed container holds nothing, a successful construction or
emplace leaves it holding exactly one object, clear and move-out leave it
holding nothing, and no reachable state holds more than one object. -/
theorem state_machine_invariant {ι : Type} {Val : ι → Type} :
    (CAnyMovable.mkDefault : CAnyMovable ι Val).heldCount = 0 ∧
    (CAnyMovable.mkDefault : CAnyMovable ι Val).isDefined = false ∧
    (∀ (t : ι) (v : Val t), (CAnyMovable.ofValue t v).heldCount = 1) ∧
    (∀ (a : CAnyMovable ι Val) (t : ι) (v : Val t),
      (a.emplace t v).heldCount = 1) ∧
    (∀ a : CAnyMovable ι Val, a.clear.heldCount = 0) ∧
    (∀ a : CAnyMovable ι Val, (CAnyMovable.moveCtor a).2.heldCount = 0) ∧
    (∀ a : CAnyMovable ι Val, CAnyMovable.Reachable a → a.heldCount ≤ 1) := by
  refine ⟨rfl, rfl, fun t v => rfl, fun a t v => rfl, fun a => rfl,
    fun a => rfl, fun a _ => ?_⟩
  cases a with
  | mk p => cases p <;> simp [CAnyMovable.heldCount]

/-- Witness for C8, at the reachable state holding the value 5. -/
theorem state_machine_invariant_witness :
    CAnyMovable.Reachable
      ((CAnyMovable.ofValue () 5 : CAnyMovable Unit fun _ => Nat)) ∧
    ((CAnyMovable.ofValue () 5 : CAnyMovable Unit fun _ => Nat)).heldCount ≤ 1 :=
  ⟨CAnyMovable.Reachable.viaValue () 5,
   state_machine_invariant.2.2.2.2.2.2
     (CAnyMovable.ofValue () 5) (CAnyMovable.Reachable.viaValue () 5)⟩

/-- C3: tagged in-place construction and `emplace` run the target type's
constructor exactly once, on the forwarded arguments, and the value it
produces is the one stored; the trace shows no copy and no move of the
target type — no intermediate temporary is ever created. -/
theorem single_construction_no_temporary {ι : Type} {Val : ι → Type}
    {A : Type} (a : CAnyMovable ι Val) (t : ι) (ctor : A → Val t)
    (args : A) :
    (CAnyMovable.inPlaceCtorTr t ctor args).2 = [TEvent.construct] ∧
    (CAnyMovable.inPlaceCtorTr t ctor args).1.pIObject_
      = some ⟨t, ctor args⟩ ∧
    (CAnyMovable.emplaceTr a t ctor args).2 = [TEvent.construct] ∧
    (CAnyMovable.emplaceTr a t ctor args).1.pIObject_
      = some ⟨t, ctor args⟩ ∧
    (CAnyMovable.emplaceTr a t ctor args).2.count TEvent.construct = 1 ∧
    TEvent.copy ∉ (CAnyMovable.emplaceTr a t ctor args).2 ∧
    TEvent.moveT ∉ (CAnyMovable.emplaceTr a t ctor args).2 := by
  refine ⟨rfl, rfl, rfl, rfl, rfl, ?_, ?_⟩
  · show TEvent.copy ∉ [TEvent.construct]
    exact fun hm => absurd (List.mem_singleton.mp hm) (by decide)
  · show TEvent.moveT ∉ [TEvent.construct]
    exact fun hm => absurd (List.mem_singleton.mp hm) (by decide)

/-- C4: a fixed-size sequence stored by move is transferred element by
element at the compile-time indices 0..n-1, and reading the stored
sequence back yields elements equal to the source's, in the same order. -/
theorem array_elementwise_roundtrip {V : Type} (src : List V) :
    arrayKeeperObject (arrayKeeperCtor src) = src :=
  List.finRange_map_get src

/-- C1 counterexample: calling `emplace` on a container holding the value
5 with a constructor that fails leaves the container still holding 5 —
`isDefined()` remains true, the container is not left empty — and the
event order on the success path is construction of the new object first,
release of the old one second, never release-before-construction. -/
theorem emplace_fail_keeps_previous_cex :
    (((CAnyMovable.ofValue () 5 : CAnyMovable Unit fun _ => Nat)).emplaceF ()
        (Except.error ())).1
      = CAnyMovable.ofValue () 5 ∧
    (((CAnyMovable.ofValue () 5 : CAnyMovable Unit fun _ => Nat)).emplaceF ()
        (Except.error ())).1.isDefined
      = true ∧
    emplaceEvents true true = [REvent.ctorNew, REvent.dtorOld] ∧
    emplaceEvents true false = [] :=
  ⟨rfl, rfl, rfl, rfl⟩

/-- C1 (amended): `emplace` releases the previously held object only after
the new object's construction has succeeded; if the construction fails,
the exception propagates and the container is unchanged, still holding the
previous value (no release ever happens); on success the container holds
the new value and the old object is released after the construction. -/
theorem emplace_releases_after_construction {ι : Type} {Val : ι → Type}
    {E : Type} (a : CAnyMovable ι Val) (t : ι) (e : E) (w : Val t)
    (h : a.isDefined = true) :
    a.emplaceF t (Except.error e) = (a, some e) ∧
    (a.emplaceF t (Except.error e)).1.isDefined = true ∧
    (a.emplaceF t (Except.ok w : Except E (Val t))).1.pIObject_
      = some ⟨t, w⟩ ∧
    (a.emplaceF t (Except.ok w : Except E (Val t))).1.isDefined = true ∧
    emplaceEvents true true = [REvent.ctorNew, REvent.dtorOld] ∧
    emplaceEvents true false = [] :=
  ⟨rfl, h, rfl, rfl, rfl, rfl⟩

/-- Witness for C1 (amended), at a container holding the value 5, with a
failing and a succeeding replacement construction. -/
theorem emplace_releases_after_construction_witness :
    (((CAnyMovable.ofValue () 5 : CAnyMovable Unit fun _ => Nat)).emplaceF ()
        (Except.error ())).1.isDefined = true ∧
    (((CAnyMovable.ofValue () 5 : CAnyMovable Unit fun _ => Nat)).emplaceF ()
        (Except.ok 9 : Except Unit Nat)).1.isDefined = true :=
  ⟨(emplace_releases_after_construction
      ((CAnyMovable.ofValue () 5 : CAnyMovable Unit fun _ => Nat)) () () 9
      rfl).2.1,
   (emplace_releases_after_construction
      ((CAnyMovable.ofValue () 5 : CAnyMovable Unit fun _ => Nat)) () () 9
      rfl).2.2.2.1⟩

/-- C2 counterexample: for a const lvalue argument of scalar type, the
deduced `T` is `const scalar&`, so the stored type
`CObjType<T> = remove_reference_t<T>` is `const scalar` — it retains the
const qualifier and differs from the decayed type the claim asserts. -/
theorem stored_type_not_decayed_cex :
    CObjType (deduceT (Ty.constQ (Ty.scalar 0)) ValueCat.lvalue)
      = Ty.constQ (Ty.scalar 0) ∧
    decaySpec (deduceT (Ty.constQ (Ty.scalar 0)) ValueCat.lvalue)
      = Ty.scalar 0 ∧
    CObjType (deduceT (Ty.constQ (Ty.scalar 0)) ValueCat.lvalue)
      ≠ decaySpec (deduceT (Ty.constQ (Ty.scalar 0)) ValueCat.lvalue) :=
  ⟨rfl, rfl, by decide⟩

/-- C2 (amended): the stored concrete type is the argument's
reference-stripped type `std::remove_reference_t<T>` — with const
qualification and array-ness preserved, not decayed — and lvalue and
rvalue arguments of the same type yield the same stored type. -/
theorem stored_type_is_removeReference (A : Ty) (cat : ValueCat)
    (h : A.isRef = false) :
    CObjType (deduceT A cat) = A ∧
    CObjType (deduceT A ValueCat.lvalue)
      = CObjType (deduceT A ValueCat.rvalue) := by
  have key : A.removeReference = A := by
    cases A <;> first | rfl | simp [Ty.isRef] at h
  refine ⟨?_, key.symm⟩
  cases cat
  · rfl
  · exact key

/-- Witness for C2 (amended), at a const-qualified scalar argument type. -/
theorem stored_type_is_removeReference_witness :
    (Ty.constQ (Ty.scalar 0)).isRef = false ∧
    CObjType (deduceT (Ty.constQ (Ty.scalar 0)) ValueCat.lvalue)
      = Ty.constQ (Ty.scalar 0) :=
  ⟨rfl,
   (stored_type_is_removeReference (Ty.constQ (Ty.scalar 0))
      ValueCat.lvalue rfl).1⟩

end NSLibrary
